import Mathlib

/-!
Shallow embedding of the usbip-win2 PnP request router and device-lifecycle
state machine (src/driver/vhci/pnp.cpp), of the installer tool's
classfilter command (src/unnamed/part_000), and of the bulk/interrupt URB
fetch helper (src/unnamed/part_001), together with theorems settling the
spec's claims about them.
-/

namespace UsbipWin2

/-- NTSTATUS codes occurring in the embedded code.  Lower-layer results that
the router merely propagates are opaque and represented by `Other`. -/
inductive NTSTATUS where
  | Success
  | NotSupported
  | NoSuchDevice
  | Unsuccessful
  | InsufficientResources
  | InvalidParameter
  | Other (n : Nat)
deriving DecidableEq, Repr

/-- `vdev_type_t`: the six bus-stack layers (pnp.cpp `vdev_desc` order). -/
inductive vdev_type where
  | VDEV_ROOT
  | VDEV_CPDO
  | VDEV_VHCI
  | VDEV_HPDO
  | VDEV_VHUB
  | VDEV_VPDO
deriving DecidableEq, Repr

/-- `pnp_state`: device lifecycle states. -/
inductive pnp_state where
  | NotStarted
  | Started
  | StopPending
  | Stopped
  | RemovePending
  | SurpriseRemovePending
  | Removed
deriving DecidableEq, Repr

/-- The mutable per-node fields of `vdev_t` that the PnP handlers touch.
`product` stands for the VPDO's device-specific product string obtained from
the remote device descriptor (`get_product`), `none` when unavailable. -/
structure vdev_t where
  type : vdev_type
  PnPState : pnp_state
  PreviousPnPState : pnp_state
  intf_ref_cnt : Nat
  product : Option String
deriving DecidableEq, Repr

/-- The request: MinorFunction ordinal, the arriving IoStatus.Status
(PnP IRPs arrive with STATUS_NOT_SUPPORTED), the arriving
IoStatus.Information payload (a string for device-text queries), and the
Parameters.QueryDeviceText.DeviceTextType ordinal
(0 = DeviceTextDescription, 1 = DeviceTextLocationInformation). -/
structure Irp where
  MinorFunction : Nat
  Status : NTSTATUS
  Information : Option String
  DeviceTextType : Nat
deriving DecidableEq, Repr

/-- Environment: results the OS and the next lower driver yield during one
dispatch.  `lowerStatus` is the status `IoCallDriver` on the lower device
object returns; `deviceProperty` is what `GetDeviceProperty(vdev->Self, prop)`
yields from the registry, `none` on failure. -/
structure Env where
  lowerStatus : NTSTATUS
  deviceProperty : Option String
deriving DecidableEq, Repr

/-- Outcome of one dispatched request: the vdev afterwards, the resolved
status, the IoStatus.Information payload, whether the IRP was passed down to
the lower layer (`IoCallDriver`), and whether `vhub_unplug_vpdo` was
triggered. -/
structure DispatchResult where
  vdev : vdev_t
  status : NTSTATUS
  info : Option String
  forwarded : Bool
  unplugged : Bool
deriving DecidableEq, Repr

/-- `CompleteRequest(irp, st)`: complete locally with the given status
(defaulted to STATUS_SUCCESS at most call sites in the source). -/
def CompleteRequest (vdev : vdev_t) (irp : Irp) (st : NTSTATUS) : DispatchResult :=
  ⟨vdev, st, irp.Information, false, false⟩

/-- `CompleteRequestAsIs(irp)`: complete locally keeping the IRP's current
IoStatus.Status untouched. -/
def CompleteRequestAsIs (vdev : vdev_t) (irp : Irp) : DispatchResult :=
  ⟨vdev, irp.Status, irp.Information, false, false⟩

/-- `irp_pass_down(devobj_lower, irp)`: forward the request unchanged to the
next lower layer and propagate its result untouched. -/
def irp_pass_down (env : Env) (vdev : vdev_t) (irp : Irp) : DispatchResult :=
  ⟨vdev, env.lowerStatus, irp.Information, true, false⟩

/-- Modelled from the spec: `is_fdo` is declared outside src/.  The spec's
data model says the optional forwarding target `lower_layer` is "present only
for kinds that sit functionally above another driver layer (Controller,
VirtualHub, VirtualPort); absent for the topmost/leaf-only kinds". -/
def is_fdo (t : vdev_type) : Bool :=
  match t with
  | .VDEV_VHCI => true
  | .VDEV_VHUB => true
  | .VDEV_VPDO => true
  | _ => false

/-- pnp.cpp `irp_pass_down_or_complete`: forward when the node has a lower
layer, otherwise complete locally with success. -/
def irp_pass_down_or_complete (env : Env) (vdev : vdev_t) (irp : Irp) : DispatchResult :=
  if is_fdo vdev.type then irp_pass_down env vdev irp else CompleteRequest vdev irp .Success

/-- pnp.cpp `set_state`: record a new PnP state, saving the then-current
state into `PreviousPnPState` (unconditionally, on every call). -/
def set_state (vdev : vdev_t) (state : pnp_state) : vdev_t :=
  { vdev with PreviousPnPState := vdev.PnPState, PnPState := state }

/-- Modelled from the spec: `set_previous_pnp_state` is declared outside
src/.  The spec's transition table gives the effect of CancelStop /
CancelRemove as "restore `state = previous_state`" (one-level rollback). -/
def set_previous_pnp_state (vdev : vdev_t) : vdev_t :=
  { vdev with PnPState := vdev.PreviousPnPState }

/-- pnp.cpp `pnp_query_stop_device`. -/
def pnp_query_stop_device (env : Env) (vdev : vdev_t) (irp : Irp) : DispatchResult :=
  irp_pass_down_or_complete env (set_state vdev .StopPending) irp

/-- pnp.cpp `pnp_cancel_stop_device`. -/
def pnp_cancel_stop_device (env : Env) (vdev : vdev_t) (irp : Irp) : DispatchResult :=
  let v := if vdev.PnPState = .StopPending then set_previous_pnp_state vdev else vdev
  irp_pass_down_or_complete env v irp

/-- pnp.cpp `pnp_stop_device`. -/
def pnp_stop_device (env : Env) (vdev : vdev_t) (irp : Irp) : DispatchResult :=
  irp_pass_down_or_complete env (set_state vdev .Stopped) irp

/-- pnp.cpp `device_can_be_removed`: zero-timeout poll of `intf_ref_event`.
Modelled from the spec for the event itself (which is maintained outside
src/): the notify primitive is signalled exactly when `interface_refcount`
is zero, so the non-blocking poll succeeds iff `intf_ref_cnt = 0`. -/
def device_can_be_removed (vdev : vdev_t) : Bool :=
  vdev.intf_ref_cnt = 0

/-- pnp.cpp `pnp_query_remove_device`. -/
def pnp_query_remove_device (env : Env) (vdev : vdev_t) (irp : Irp) : DispatchResult :=
  if device_can_be_removed vdev then
    irp_pass_down_or_complete env (set_state vdev .RemovePending) irp
  else
    CompleteRequest vdev irp .Unsuccessful

/-- pnp.cpp `pnp_cancel_remove_device`. -/
def pnp_cancel_remove_device (env : Env) (vdev : vdev_t) (irp : Irp) : DispatchResult :=
  let v := if vdev.PnPState = .RemovePending then set_previous_pnp_state vdev else vdev
  irp_pass_down_or_complete env v irp

/-- pnp.cpp `pnp_surprise_removal`. -/
def pnp_surprise_removal (env : Env) (vdev : vdev_t) (irp : Irp) : DispatchResult :=
  irp_pass_down_or_complete env (set_state vdev .SurpriseRemovePending) irp

/-- pnp.cpp `pnp_query_bus_information`: allocation is modelled as
succeeding, so the synthesized bus descriptor is produced and the request
completes with success. -/
def pnp_query_bus_information (_env : Env) (vdev : vdev_t) (irp : Irp) : DispatchResult :=
  CompleteRequest vdev irp .Success

/-- pnp.cpp `pnp_0x0E` (undefined minor 0x0E): complete as-is. -/
def pnp_0x0E (_env : Env) (vdev : vdev_t) (irp : Irp) : DispatchResult :=
  CompleteRequestAsIs vdev irp

/-- pnp.cpp `pnp_read_config`: complete as-is. -/
def pnp_read_config (_env : Env) (vdev : vdev_t) (irp : Irp) : DispatchResult :=
  CompleteRequestAsIs vdev irp

/-- pnp.cpp `pnp_write_config`: complete as-is. -/
def pnp_write_config (_env : Env) (vdev : vdev_t) (irp : Irp) : DispatchResult :=
  CompleteRequestAsIs vdev irp

/-- pnp.cpp `pnp_eject`: on a VPDO, trigger `vhub_unplug_vpdo` and complete
with success; on every other kind, complete as-is. -/
def pnp_eject (_env : Env) (vdev : vdev_t) (irp : Irp) : DispatchResult :=
  if vdev.type = .VDEV_VPDO then
    ⟨vdev, .Success, irp.Information, false, true⟩
  else
    CompleteRequestAsIs vdev irp

/-- pnp.cpp `pnp_set_lock`: complete as-is. -/
def pnp_set_lock (_env : Env) (vdev : vdev_t) (irp : Irp) : DispatchResult :=
  CompleteRequestAsIs vdev irp

/-- pnp.cpp `pnp_query_pnp_device_state`: report the device-state flags
(the PNP_DEVICE_REMOVED bit is ORed in iff the state is Removed; the flags
word itself is not needed by any claim) and complete with success. -/
def pnp_query_pnp_device_state (_env : Env) (vdev : vdev_t) (irp : Irp) : DispatchResult :=
  CompleteRequest vdev irp .Success

/-- pnp.cpp `pnp_device_usage_notification`: log and apply the default
forward-or-complete rule. -/
def pnp_device_usage_notification (env : Env) (vdev : vdev_t) (irp : Irp) : DispatchResult :=
  irp_pass_down_or_complete env vdev irp

/-- pnp.cpp `pnp_query_legacy_bus_information`: complete as-is. -/
def pnp_query_legacy_bus_information (_env : Env) (vdev : vdev_t) (irp : Irp) : DispatchResult :=
  CompleteRequestAsIs vdev irp

/-- pnp.cpp `pnp_device_enumerated`: complete with success. -/
def pnp_device_enumerated (_env : Env) (vdev : vdev_t) (irp : Irp) : DispatchResult :=
  CompleteRequest vdev irp .Success

/-- pnp.cpp `vdev_desc`: per-kind canned description strings. -/
def vdev_desc (t : vdev_type) : String :=
  match t with
  | .VDEV_ROOT => "usbip-win ROOT"
  | .VDEV_CPDO => "usbip-win CPDO"
  | .VDEV_VHCI => "usbip-win VHCI"
  | .VDEV_HPDO => "usbip-win HPDO"
  | .VDEV_VHUB => "usbip-win VHUB"
  | .VDEV_VPDO => "usbip-win VPDO"

/-- pnp.cpp `pnp_query_device_text`.  DeviceTextType 0 (Description) selects
the registry property DeviceDescription and the canned `vdev_desc` string;
type 1 (LocationInformation) selects the LocationInformation property and no
canned string; any other type completes with STATUS_INVALID_PARAMETER.  The
registry property, when obtained, wins; else on a VPDO queried for the
description the product string is used; else the canned string, when
present.  `libdrv_strdup` inside `copy_str` is modelled as succeeding.
The request is completed as-is with whatever status was recorded. -/
def pnp_query_device_text (env : Env) (vdev : vdev_t) (irp : Irp) : DispatchResult :=
  if irp.DeviceTextType = 0 ∨ irp.DeviceTextType = 1 then
    let prop_str : Option String :=
      if irp.DeviceTextType = 0 then some (vdev_desc vdev.type) else none
    let first : Option String × NTSTATUS :=
      match env.deviceProperty with
      | some s => (some s, .Success)
      | none =>
        if vdev.type = .VDEV_VPDO ∧ irp.DeviceTextType = 0 then
          match vdev.product with
          | some p => (some p, .Success)
          | none => (none, irp.Status)
        else
          (none, irp.Status)
    let final : Option String × NTSTATUS :=
      match first.1, prop_str with
      | none, some c => (some c, .Success)
      | _, _ => first
    ⟨vdev, final.2, final.1, false, false⟩
  else
    CompleteRequest vdev irp .InvalidParameter

/-- Modelled from the spec: `pnp_start_device` is declared outside src/.
The state machine records the Started state and the handler applies the
default forward-or-complete rule. -/
def pnp_start_device (env : Env) (vdev : vdev_t) (irp : Irp) : DispatchResult :=
  irp_pass_down_or_complete env (set_state vdev .Started) irp

/-- Modelled from the spec: `pnp_remove_device` is declared outside src/.
Removal is "delegated to external finalization collaborator" which "may
ultimately set `state = Removed`"; completion is collaborator-defined,
modelled as local completion with success. -/
def pnp_remove_device (_env : Env) (vdev : vdev_t) (irp : Irp) : DispatchResult :=
  CompleteRequest { vdev with PnPState := .Removed } irp .Success

/-- Modelled from the spec: `pnp_query_device_relations` is declared outside
src/; payload construction is delegated to a collaborator and the router
applies the forward-or-complete rule to its result. -/
def pnp_query_device_relations (env : Env) (vdev : vdev_t) (irp : Irp) : DispatchResult :=
  irp_pass_down_or_complete env vdev irp

/-- Modelled from the spec: `pnp_query_interface` is declared outside src/;
delegated construction plus the forward-or-complete rule. -/
def pnp_query_interface (env : Env) (vdev : vdev_t) (irp : Irp) : DispatchResult :=
  irp_pass_down_or_complete env vdev irp

/-- Modelled from the spec: `pnp_query_capabilities` is declared outside
src/; delegated construction plus the forward-or-complete rule. -/
def pnp_query_capabilities (env : Env) (vdev : vdev_t) (irp : Irp) : DispatchResult :=
  irp_pass_down_or_complete env vdev irp

/-- Modelled from the spec: `pnp_query_resources` is declared outside src/;
delegated construction plus the forward-or-complete rule. -/
def pnp_query_resources (env : Env) (vdev : vdev_t) (irp : Irp) : DispatchResult :=
  irp_pass_down_or_complete env vdev irp

/-- Modelled from the spec: `pnp_query_resource_requirements` is declared
outside src/; delegated construction plus the forward-or-complete rule. -/
def pnp_query_resource_requirements (env : Env) (vdev : vdev_t) (irp : Irp) : DispatchResult :=
  irp_pass_down_or_complete env vdev irp

/-- Modelled from the spec: `pnp_filter_resource_requirements` is declared
outside src/; delegated construction plus the forward-or-complete rule. -/
def pnp_filter_resource_requirements (env : Env) (vdev : vdev_t) (irp : Irp) : DispatchResult :=
  irp_pass_down_or_complete env vdev irp

/-- Modelled from the spec: `pnp_query_id` is declared outside src/;
delegated construction plus the forward-or-complete rule. -/
def pnp_query_id (env : Env) (vdev : vdev_t) (irp : Irp) : DispatchResult :=
  irp_pass_down_or_complete env vdev irp

/-- pnp.cpp `pnpmn_functions`: the fixed ordinal-indexed dispatch table,
in the exact source order (IRP_MN_START_DEVICE = 0x00 ...
IRP_MN_DEVICE_ENUMERATED = 0x19). -/
def pnpmn_functions : List (Env → vdev_t → Irp → DispatchResult) :=
  [ pnp_start_device,
    pnp_query_remove_device,
    pnp_remove_device,
    pnp_cancel_remove_device,
    pnp_stop_device,
    pnp_query_stop_device,
    pnp_cancel_stop_device,
    pnp_query_device_relations,
    pnp_query_interface,
    pnp_query_capabilities,
    pnp_query_resources,
    pnp_query_resource_requirements,
    pnp_query_device_text,
    pnp_filter_resource_requirements,
    pnp_0x0E,
    pnp_read_config,
    pnp_write_config,
    pnp_eject,
    pnp_set_lock,
    pnp_query_id,
    pnp_query_pnp_device_state,
    pnp_query_bus_information,
    pnp_device_usage_notification,
    pnp_surprise_removal,
    pnp_query_legacy_bus_information,
    pnp_device_enumerated ]

/-- pnp.cpp `vhci_pnp`: the request router.  Removed-state fast-fail with
STATUS_NO_SUCH_DEVICE, then bounds-checked table dispatch, and unknown
MinorFunction ordinals are completed as-is. -/
def vhci_pnp (env : Env) (vdev : vdev_t) (irp : Irp) : DispatchResult :=
  if vdev.PnPState = .Removed then
    CompleteRequest vdev irp .NoSuchDevice
  else if h : irp.MinorFunction < pnpmn_functions.length then
    (pnpmn_functions.get ⟨irp.MinorFunction, h⟩) env vdev irp
  else
    CompleteRequestAsIs vdev irp

/-- part_000 `split_multi_sz`: walk the stored REG_MULTI_SZ string list,
dropping every entry equal to `exclude` and setting the flag when one was
dropped.  The registry value is modelled at the string-list level (the
REG_MULTI_SZ wire encoding of `read_multi_z` / `make_multi_sz` is a
bijection between such lists of nonempty strings and the flat buffers). -/
def split_multi_sz : List String → String → Bool → List String × Bool
  | [], _, excluded => ([], excluded)
  | s :: rest, exclude, excluded =>
    if s = exclude then
      split_multi_sz rest exclude true
    else
      let r := split_multi_sz rest exclude excluded
      (s :: r.1, r.2)

/-- Outcome of one `classfilter` invocation: the persisted value afterwards
and whether `RegSetValueEx` was invoked. -/
structure ClassFilterResult where
  stored : List String
  wrote : Bool
deriving DecidableEq, Repr

/-- part_000 `classfilter`: read the ordered filter list for the class,
drop every occurrence of `driver_name` (recording whether any was present),
append it when adding, and persist only when the `modified` flag is set —
which is initialized to `add`, so an add always persists.  Registry open,
read and write are modelled as succeeding. -/
def classfilter (stored : List String) (driver_name : String) (add : Bool) :
    ClassFilterResult :=
  let modified := add
  let split := split_multi_sz stored driver_name modified
  let filters := if add then split.1 ++ [driver_name] else split.1
  if split.2 then
    ⟨filters, true⟩
  else
    ⟨stored, false⟩

/-- The URB fields of `_URB_BULK_OR_INTERRUPT_TRANSFER` that
`fetch_urbr_bulk_or_interrupt` touches. -/
structure URB_BULK_OR_INTERRUPT_TRANSFER where
  TransferFlags : Nat
  TransferBufferLength : Nat
deriving DecidableEq, Repr

/-- `IS_TRANSFER_FLAGS_IN(flags)`: tests the USBD_TRANSFER_DIRECTION_IN bit
(bit 0 of TransferFlags). -/
def IS_TRANSFER_FLAGS_IN (flags : Nat) : Bool :=
  flags % 2 = 1

/-- part_001 `fetch_urbr_bulk_or_interrupt`.  For a receive-direction (IN)
transfer, `copy_to_transfer_buffer` (outside src/, its result is the opaque
input `copy_status`) moves `actual_length` bytes from the header payload;
on success the URB's TransferBufferLength is set to
`hdr.u.ret_submit.actual_length`, on failure the failing status is returned
with the URB untouched.  A send-direction transfer is a no-op success. -/
def fetch_urbr_bulk_or_interrupt (urb : URB_BULK_OR_INTERRUPT_TRANSFER)
    (actual_length : Nat) (copy_status : NTSTATUS) :
    URB_BULK_OR_INTERRUPT_TRANSFER × NTSTATUS :=
  if IS_TRANSFER_FLAGS_IN urb.TransferFlags then
    if copy_status = .Success then
      ({ urb with TransferBufferLength := actual_length }, .Success)
    else
      (urb, copy_status)
  else
    (urb, .Success)

/-! ## Helper lemmas -/

/-- The forward-or-complete rule never changes the vdev it is given. -/
theorem irp_pass_down_or_complete_vdev (env : Env) (vdev : vdev_t) (irp : Irp) :
    (irp_pass_down_or_complete env vdev irp).vdev = vdev := by
  unfold irp_pass_down_or_complete irp_pass_down CompleteRequest
  split <;> rfl

/-- The forward-or-complete rule forwards exactly when the node has a lower
layer, and completes locally with success otherwise. -/
theorem irp_pass_down_or_complete_spec (env : Env) (vdev : vdev_t) (irp : Irp) :
    irp_pass_down_or_complete env vdev irp =
      if is_fdo vdev.type then ⟨vdev, env.lowerStatus, irp.Information, true, false⟩
      else ⟨vdev, .Success, irp.Information, false, false⟩ := by
  unfold irp_pass_down_or_complete irp_pass_down CompleteRequest
  split <;> rfl

/-! ## Claims -/

/-- C1: once `vdev.PnPState = Removed`, the router resolves every request
immediately with STATUS_NO_SUCH_DEVICE, invokes no handler, forwards
nothing to the lower layer, and leaves every vdev field (state,
previous state, interface refcount) unchanged: the result is exactly the
local NoSuchDevice completion of the incoming request, for every
MinorFunction ordinal and every environment. -/
theorem C1_removed_fast_fail (env : Env) (vdev : vdev_t) (irp : Irp)
    (h : vdev.PnPState = .Removed) :
    vhci_pnp env vdev irp = ⟨vdev, .NoSuchDevice, irp.Information, false, false⟩ := by
  simp [vhci_pnp, h, CompleteRequest]

/-- C1 witness: a Removed VPDO receiving MinorFunction 5 (QueryStop). -/
theorem C1_removed_fast_fail_witness :
    (⟨.VDEV_VPDO, .Removed, .Started, 0, none⟩ : vdev_t).PnPState = .Removed ∧
    vhci_pnp ⟨.Other 7, none⟩ ⟨.VDEV_VPDO, .Removed, .Started, 0, none⟩
        ⟨5, .NotSupported, none, 0⟩ =
      ⟨⟨.VDEV_VPDO, .Removed, .Started, 0, none⟩, .NoSuchDevice, none, false, false⟩ :=
  ⟨rfl, C1_removed_fast_fail ⟨.Other 7, none⟩ ⟨.VDEV_VPDO, .Removed, .Started, 0, none⟩
      ⟨5, .NotSupported, none, 0⟩ rfl⟩

/-- C2 counterexample: a VHCI node (whose `lower_layer` is present, i.e.
`is_fdo` holds) in the Started state receiving the out-of-range
MinorFunction 26 is NOT forwarded to the lower layer: the router completes
it locally as-is, and its status is the arriving STATUS_NOT_SUPPORTED, not
the lower layer's status — contradicting the claim that a subtype code
beyond the table range is forwarded when a lower layer is present. -/
theorem C2_unknown_minor_counterexample :
    is_fdo (⟨.VDEV_VHCI, .Started, .NotStarted, 0, none⟩ : vdev_t).type = true ∧
    (vhci_pnp ⟨.Other 7, none⟩ ⟨.VDEV_VHCI, .Started, .NotStarted, 0, none⟩
        ⟨26, .NotSupported, none, 0⟩).forwarded = false ∧
    (vhci_pnp ⟨.Other 7, none⟩ ⟨.VDEV_VHCI, .Started, .NotStarted, 0, none⟩
        ⟨26, .NotSupported, none, 0⟩).status = .NotSupported := by
  decide

/-- C2 amended: for every vdev kind and every subtype code at or beyond the
dispatch-table size, when the state is not Removed the router completes the
request locally as-is (keeping the arriving status), forwards nothing
regardless of lower-layer presence, and leaves the vdev unchanged. -/
theorem C2_unknown_minor_completes_as_is (env : Env) (vdev : vdev_t) (irp : Irp)
    (h1 : vdev.PnPState ≠ .Removed)
    (h2 : pnpmn_functions.length ≤ irp.MinorFunction) :
    vhci_pnp env vdev irp = ⟨vdev, irp.Status, irp.Information, false, false⟩ := by
  unfold vhci_pnp
  rw [if_neg h1, dif_neg (Nat.not_lt.mpr h2)]
  rfl

/-- C2 witness: a Started VHCI node receiving MinorFunction 26. -/
theorem C2_unknown_minor_witness :
    (⟨.VDEV_VHCI, .Started, .NotStarted, 0, none⟩ : vdev_t).PnPState ≠ .Removed ∧
    pnpmn_functions.length ≤ 26 ∧
    vhci_pnp ⟨.Other 7, none⟩ ⟨.VDEV_VHCI, .Started, .NotStarted, 0, none⟩
        ⟨26, .NotSupported, none, 0⟩ =
      ⟨⟨.VDEV_VHCI, .Started, .NotStarted, 0, none⟩, .NotSupported, none, false, false⟩ :=
  ⟨by decide, by decide,
    C2_unknown_minor_completes_as_is ⟨.Other 7, none⟩
      ⟨.VDEV_VHCI, .Started, .NotStarted, 0, none⟩ ⟨26, .NotSupported, none, 0⟩
      (by decide) (by decide)⟩

/-- C3 counterexample: Stop is NOT in the *Pending family, yet it writes
`previous_state`: a node with `PnPState = Started` and
`PreviousPnPState = NotStarted` that handles Stop ends with
`PreviousPnPState = Started` (changed) and `PnPState = Stopped` —
contradicting the claim that Stop leaves `previous_state` unchanged. -/
theorem C3_stop_writes_previous_state_counterexample :
    (⟨.VDEV_ROOT, .Started, .NotStarted, 0, none⟩ : vdev_t).PreviousPnPState = .NotStarted ∧
    (pnp_stop_device ⟨.Other 7, none⟩ ⟨.VDEV_ROOT, .Started, .NotStarted, 0, none⟩
        ⟨4, .NotSupported, none, 0⟩).vdev.PreviousPnPState = .Started ∧
    (pnp_stop_device ⟨.Other 7, none⟩ ⟨.VDEV_ROOT, .Started, .NotStarted, 0, none⟩
        ⟨4, .NotSupported, none, 0⟩).vdev.PnPState = .Stopped := by
  decide

/-- C3 amended: `set_state` saves the then-current state into
`previous_state` on every invocation, not only when entering a *Pending
state; in particular the Stop handler, which sets `state = Stopped`, also
sets `previous_state` to the prior current state. -/
theorem C3_set_state_always_saves (env : Env) (vdev : vdev_t) (irp : Irp) (st : pnp_state) :
    (set_state vdev st).PreviousPnPState = vdev.PnPState ∧
    (set_state vdev st).PnPState = st ∧
    (pnp_stop_device env vdev irp).vdev.PreviousPnPState = vdev.PnPState ∧
    (pnp_stop_device env vdev irp).vdev.PnPState = .Stopped := by
  refine ⟨rfl, rfl, ?_, ?_⟩ <;>
    simp [pnp_stop_device, irp_pass_down_or_complete_vdev, set_state]

/-- C4: QueryRemove with a nonzero interface refcount (so the zero-timeout
poll of the refcount-zero event fails) never transitions to RemovePending,
leaves the vdev unchanged and resolves with STATUS_UNSUCCESSFUL; with a
zero refcount it saves the current state into `previous_state`, sets
`state = RemovePending`, and applies forward-or-complete. -/
theorem C4_query_remove_gate (env : Env) (vdev : vdev_t) (irp : Irp) :
    (0 < vdev.intf_ref_cnt →
      pnp_query_remove_device env vdev irp = CompleteRequest vdev irp .Unsuccessful) ∧
    (vdev.intf_ref_cnt = 0 →
      pnp_query_remove_device env vdev irp =
        irp_pass_down_or_complete env (set_state vdev .RemovePending) irp ∧
      (pnp_query_remove_device env vdev irp).vdev.PnPState = .RemovePending ∧
      (pnp_query_remove_device env vdev irp).vdev.PreviousPnPState = vdev.PnPState) := by
  constructor
  · intro h
    have hne : vdev.intf_ref_cnt ≠ 0 := Nat.pos_iff_ne_zero.mp h
    simp [pnp_query_remove_device, device_can_be_removed, hne]
  · intro h
    refine ⟨?_, ?_, ?_⟩ <;>
      simp [pnp_query_remove_device, device_can_be_removed, h,
            irp_pass_down_or_complete_vdev, set_state]

/-- C4 witness: a busy VPDO (refcount 1) fails with Unsuccessful; a free
VPDO (refcount 0) transitions to RemovePending. -/
theorem C4_query_remove_gate_witness :
    pnp_query_remove_device ⟨.Other 7, none⟩ ⟨.VDEV_VPDO, .Started, .NotStarted, 1, none⟩
        ⟨1, .NotSupported, none, 0⟩ =
      CompleteRequest ⟨.VDEV_VPDO, .Started, .NotStarted, 1, none⟩
        ⟨1, .NotSupported, none, 0⟩ .Unsuccessful ∧
    (pnp_query_remove_device ⟨.Other 7, none⟩ ⟨.VDEV_VPDO, .Started, .NotStarted, 0, none⟩
        ⟨1, .NotSupported, none, 0⟩).vdev.PnPState = .RemovePending :=
  ⟨(C4_query_remove_gate ⟨.Other 7, none⟩ ⟨.VDEV_VPDO, .Started, .NotStarted, 1, none⟩
      ⟨1, .NotSupported, none, 0⟩).1 (by decide),
   ((C4_query_remove_gate ⟨.Other 7, none⟩ ⟨.VDEV_VPDO, .Started, .NotStarted, 0, none⟩
      ⟨1, .NotSupported, none, 0⟩).2 (by decide)).2.1⟩

/-- C5: CancelStop received while the state is not StopPending, and
CancelRemove received while the state is not RemovePending, are no-ops:
the vdev (state and previous state included) is unchanged and the request
is resolved exactly by the default forward-or-complete rule (never an
error of the handler's own). -/
theorem C5_cancel_noop (env : Env) (vdev : vdev_t) (irp : Irp) :
    (vdev.PnPState ≠ .StopPending →
      pnp_cancel_stop_device env vdev irp = irp_pass_down_or_complete env vdev irp ∧
      (pnp_cancel_stop_device env vdev irp).vdev = vdev) ∧
    (vdev.PnPState ≠ .RemovePending →
      pnp_cancel_remove_device env vdev irp = irp_pass_down_or_complete env vdev irp ∧
      (pnp_cancel_remove_device env vdev irp).vdev = vdev) := by
  constructor
  · intro h
    refine ⟨?_, ?_⟩ <;>
      simp [pnp_cancel_stop_device, h, irp_pass_down_or_complete_vdev]
  · intro h
    refine ⟨?_, ?_⟩ <;>
      simp [pnp_cancel_remove_device, h, irp_pass_down_or_complete_vdev]

/-- C5 witness: a Started VHUB node receiving CancelStop and CancelRemove. -/
theorem C5_cancel_noop_witness :
    pnp_cancel_stop_device ⟨.Other 7, none⟩ ⟨.VDEV_VHUB, .Started, .NotStarted, 0, none⟩
        ⟨6, .NotSupported, none, 0⟩ =
      irp_pass_down_or_complete ⟨.Other 7, none⟩ ⟨.VDEV_VHUB, .Started, .NotStarted, 0, none⟩
        ⟨6, .NotSupported, none, 0⟩ ∧
    (pnp_cancel_remove_device ⟨.Other 7, none⟩ ⟨.VDEV_VHUB, .Started, .NotStarted, 0, none⟩
        ⟨3, .NotSupported, none, 0⟩).vdev = ⟨.VDEV_VHUB, .Started, .NotStarted, 0, none⟩ :=
  ⟨((C5_cancel_noop ⟨.Other 7, none⟩ ⟨.VDEV_VHUB, .Started, .NotStarted, 0, none⟩
      ⟨6, .NotSupported, none, 0⟩).1 (by decide)).1,
   ((C5_cancel_noop ⟨.Other 7, none⟩ ⟨.VDEV_VHUB, .Started, .NotStarted, 0, none⟩
      ⟨3, .NotSupported, none, 0⟩).2 (by decide)).2⟩

/-- C6: from `PnPState = Started`, applying QueryStop and then CancelStop
restores the state to exactly Started, via the single saved
`previous_state` slot. -/
theorem C6_query_stop_cancel_roundtrip (env env' : Env) (vdev : vdev_t) (irp irp' : Irp)
    (h : vdev.PnPState = .Started) :
    (pnp_cancel_stop_device env'
      (pnp_query_stop_device env vdev irp).vdev irp').vdev.PnPState = .Started := by
  simp [pnp_query_stop_device, pnp_cancel_stop_device, irp_pass_down_or_complete_vdev,
        set_state, set_previous_pnp_state, h]

/-- C6 witness: a Started VPDO round-trips through QueryStop, CancelStop. -/
theorem C6_query_stop_cancel_roundtrip_witness :
    (⟨.VDEV_VPDO, .Started, .NotStarted, 0, none⟩ : vdev_t).PnPState = .Started ∧
    (pnp_cancel_stop_device ⟨.Other 8, none⟩
      (pnp_query_stop_device ⟨.Other 7, none⟩ ⟨.VDEV_VPDO, .Started, .NotStarted, 0, none⟩
        ⟨5, .NotSupported, none, 0⟩).vdev
      ⟨6, .NotSupported, none, 0⟩).vdev.PnPState = .Started :=
  ⟨rfl, C6_query_stop_cancel_roundtrip ⟨.Other 7, none⟩ ⟨.Other 8, none⟩
      ⟨.VDEV_VPDO, .Started, .NotStarted, 0, none⟩
      ⟨5, .NotSupported, none, 0⟩ ⟨6, .NotSupported, none, 0⟩ rfl⟩

/-- C7 counterexample: a VPDO with an available product string ("Widget")
does NOT return it when the OS device-description registry property is
available ("RegistryDesc"): the registry property wins — contradicting the
claim that the product string is returned whenever it is available. -/
theorem C7_device_text_counterexample :
    (⟨.VDEV_VPDO, .Started, .NotStarted, 0, some "Widget"⟩ : vdev_t).product = some "Widget" ∧
    (pnp_query_device_text ⟨.Other 7, some "RegistryDesc"⟩
        ⟨.VDEV_VPDO, .Started, .NotStarted, 0, some "Widget"⟩
        ⟨12, .NotSupported, none, 0⟩).info = some "RegistryDesc" ∧
    (pnp_query_device_text ⟨.Other 7, some "RegistryDesc"⟩
        ⟨.VDEV_VPDO, .Started, .NotStarted, 0, some "Widget"⟩
        ⟨12, .NotSupported, none, 0⟩).info ≠ some "Widget" := by
  refine ⟨rfl, rfl, by decide⟩

/-- C7 amended: QueryDeviceText(Description) returns the device-description
registry property when the OS provides one; only when that property is
absent does a VPDO's available product string win; otherwise the per-kind
canned description is returned; an unrecognized text kind resolves with
STATUS_INVALID_PARAMETER. -/
theorem C7_device_text (env : Env) (vdev : vdev_t) (irp : Irp) :
    (env.deviceProperty = none → vdev.type = .VDEV_VPDO → irp.DeviceTextType = 0 →
      ∀ p, vdev.product = some p →
        pnp_query_device_text env vdev irp = ⟨vdev, .Success, some p, false, false⟩) ∧
    (env.deviceProperty = none → irp.DeviceTextType = 0 →
      (vdev.type ≠ .VDEV_VPDO ∨ vdev.product = none) →
        pnp_query_device_text env vdev irp =
          ⟨vdev, .Success, some (vdev_desc vdev.type), false, false⟩) ∧
    (∀ s, env.deviceProperty = some s →
      irp.DeviceTextType = 0 ∨ irp.DeviceTextType = 1 →
        pnp_query_device_text env vdev irp = ⟨vdev, .Success, some s, false, false⟩) ∧
    (irp.DeviceTextType ≠ 0 → irp.DeviceTextType ≠ 1 →
        pnp_query_device_text env vdev irp = CompleteRequest vdev irp .InvalidParameter) := by
  refine ⟨?_, ?_, ?_, ?_⟩
  · intro hprop htype htext p hp
    simp [pnp_query_device_text, hprop, htype, htext, hp]
  · intro hprop htext hother
    rcases hother with h | h
    · simp [pnp_query_device_text, hprop, htext, h]
    · by_cases hv : vdev.type = .VDEV_VPDO
      · simp [pnp_query_device_text, hprop, htext, hv, h]
      · simp [pnp_query_device_text, hprop, htext, hv]
  · intro s hs htext
    rcases htext with h | h
    · simp [pnp_query_device_text, hs, h]
    · simp [pnp_query_device_text, hs, h]
  · intro h0 h1
    simp [pnp_query_device_text, h0, h1]

/-- C7 witness: with no registry property, a VPDO with product "Widget"
returns it; a VHUB returns its canned description; text kind 2 resolves
with InvalidParameter. -/
theorem C7_device_text_witness :
    pnp_query_device_text ⟨.Other 7, none⟩
        ⟨.VDEV_VPDO, .Started, .NotStarted, 0, some "Widget"⟩ ⟨12, .NotSupported, none, 0⟩ =
      ⟨⟨.VDEV_VPDO, .Started, .NotStarted, 0, some "Widget"⟩, .Success, some "Widget",
        false, false⟩ ∧
    pnp_query_device_text ⟨.Other 7, none⟩
        ⟨.VDEV_VHUB, .Started, .NotStarted, 0, none⟩ ⟨12, .NotSupported, none, 0⟩ =
      ⟨⟨.VDEV_VHUB, .Started, .NotStarted, 0, none⟩, .Success, some "usbip-win VHUB",
        false, false⟩ ∧
    pnp_query_device_text ⟨.Other 7, none⟩
        ⟨.VDEV_VPDO, .Started, .NotStarted, 0, some "Widget"⟩ ⟨12, .NotSupported, none, 2⟩ =
      CompleteRequest ⟨.VDEV_VPDO, .Started, .NotStarted, 0, some "Widget"⟩
        ⟨12, .NotSupported, none, 2⟩ .InvalidParameter :=
  ⟨(C7_device_text ⟨.Other 7, none⟩ ⟨.VDEV_VPDO, .Started, .NotStarted, 0, some "Widget"⟩
      ⟨12, .NotSupported, none, 0⟩).1 rfl rfl rfl "Widget" rfl,
   (C7_device_text ⟨.Other 7, none⟩ ⟨.VDEV_VHUB, .Started, .NotStarted, 0, none⟩
      ⟨12, .NotSupported, none, 0⟩).2.1 rfl rfl (Or.inl (by decide)),
   (C7_device_text ⟨.Other 7, none⟩ ⟨.VDEV_VPDO, .Started, .NotStarted, 0, some "Widget"⟩
      ⟨12, .NotSupported, none, 2⟩).2.2.2 (by decide) (by decide)⟩

/-- `split_multi_sz` started with a set flag keeps the flag set. -/
theorem split_multi_sz_snd_true (l : List String) (ex : String) :
    (split_multi_sz l ex true).2 = true := by
  induction l with
  | nil => rfl
  | cons s rest ih =>
    by_cases h : s = ex <;> simp [split_multi_sz, h, ih]

/-- `split_multi_sz` removes every occurrence of the excluded string. -/
theorem split_multi_sz_count (l : List String) (ex : String) (b : Bool) :
    ((split_multi_sz l ex b).1).count ex = 0 := by
  induction l generalizing b with
  | nil => rfl
  | cons s rest ih =>
    by_cases h : s = ex
    · simp [split_multi_sz, h, ih]
    · simp [split_multi_sz, h, ih, List.count_cons]

/-- `classfilter` in add mode always persists: it appends the driver name
to the list purged of it and reports a write. -/
theorem classfilter_add_eq (stored : List String) (driver : String) :
    classfilter stored driver true =
      ⟨(split_multi_sz stored driver true).1 ++ [driver], true⟩ := by
  simp [classfilter, split_multi_sz_snd_true]

/-- C8 counterexample: `classfilter add` applied twice with the same driver
name on an initially empty list: the second invocation writes the value
again (`wrote = true`), contradicting the claim that it detects no change
and does not persist — although the resulting list does hold the name
exactly once. -/
theorem C8_double_add_counterexample :
    (classfilter (classfilter [] "usbip2_filter" true).stored "usbip2_filter" true).wrote
      = true ∧
    (classfilter (classfilter [] "usbip2_filter" true).stored "usbip2_filter" true).stored
      = ["usbip2_filter"] := by
  decide

/-- C8 amended: `classfilter add` applied twice with the same driver name
leaves the persisted list containing that name exactly once, but the second
invocation persists (writes) the value again unconditionally: add mode
always reports a change. -/
theorem C8_double_add (stored : List String) (driver : String) :
    ((classfilter (classfilter stored driver true).stored driver true).stored.count driver
      = 1) ∧
    (classfilter (classfilter stored driver true).stored driver true).wrote = true := by
  rw [classfilter_add_eq, classfilter_add_eq]
  refine ⟨?_, rfl⟩
  simp [List.count_append, split_multi_sz_count]

/-- C9 counterexample: Eject on a VHCI node — a kind whose `lower_layer`
is present (`is_fdo` holds) — is NOT forwarded to the lower layer: the
handler completes it locally as-is, contradicting the claim that non-VPDO
kinds apply the default forward-or-complete rule. -/
theorem C9_eject_counterexample :
    is_fdo (⟨.VDEV_VHCI, .Started, .NotStarted, 0, none⟩ : vdev_t).type = true ∧
    (pnp_eject ⟨.Other 7, none⟩ ⟨.VDEV_VHCI, .Started, .NotStarted, 0, none⟩
        ⟨17, .NotSupported, none, 0⟩).forwarded = false ∧
    pnp_eject ⟨.Other 7, none⟩ ⟨.VDEV_VHCI, .Started, .NotStarted, 0, none⟩
        ⟨17, .NotSupported, none, 0⟩ ≠
      irp_pass_down_or_complete ⟨.Other 7, none⟩ ⟨.VDEV_VHCI, .Started, .NotStarted, 0, none⟩
        ⟨17, .NotSupported, none, 0⟩ := by
  decide

/-- C9 amended: Eject on a VPDO triggers the unplug collaborator and
completes the request with success; on every other kind it completes the
request locally as-is (keeping the arriving status), without forwarding to
the lower layer even when one is present. -/
theorem C9_eject (env : Env) (vdev : vdev_t) (irp : Irp) :
    (vdev.type = .VDEV_VPDO →
      pnp_eject env vdev irp = ⟨vdev, .Success, irp.Information, false, true⟩) ∧
    (vdev.type ≠ .VDEV_VPDO →
      pnp_eject env vdev irp = ⟨vdev, irp.Status, irp.Information, false, false⟩) := by
  constructor
  · intro h
    simp [pnp_eject, h]
  · intro h
    simp [pnp_eject, h, CompleteRequestAsIs]

/-- C9 witness: a VPDO is unplugged and completed with success; a VHCI is
completed as-is. -/
theorem C9_eject_witness :
    pnp_eject ⟨.Other 7, none⟩ ⟨.VDEV_VPDO, .Started, .NotStarted, 0, none⟩
        ⟨17, .NotSupported, none, 0⟩ =
      ⟨⟨.VDEV_VPDO, .Started, .NotStarted, 0, none⟩, .Success, none, false, true⟩ ∧
    pnp_eject ⟨.Other 7, none⟩ ⟨.VDEV_VHCI, .Started, .NotStarted, 0, none⟩
        ⟨17, .NotSupported, none, 0⟩ =
      ⟨⟨.VDEV_VHCI, .Started, .NotStarted, 0, none⟩, .NotSupported, none, false, false⟩ :=
  ⟨(C9_eject ⟨.Other 7, none⟩ ⟨.VDEV_VPDO, .Started, .NotStarted, 0, none⟩
      ⟨17, .NotSupported, none, 0⟩).1 rfl,
   (C9_eject ⟨.Other 7, none⟩ ⟨.VDEV_VHCI, .Started, .NotStarted, 0, none⟩
      ⟨17, .NotSupported, none, 0⟩).2 (by decide)⟩

/-- C10: for a receive-direction (IN) bulk/interrupt transfer the URB's
TransferBufferLength is set to the header's actual_length exactly when the
buffer copy returns success; on a copy failure that failing status is
returned with the URB untouched; for a send-direction transfer the
function returns success and modifies nothing. -/
theorem C10_fetch_urbr_bulk_or_interrupt (urb : URB_BULK_OR_INTERRUPT_TRANSFER)
    (actual_length : Nat) (copy_status : NTSTATUS) :
    (IS_TRANSFER_FLAGS_IN urb.TransferFlags = true →
      (copy_status = .Success →
        fetch_urbr_bulk_or_interrupt urb actual_length copy_status =
          (⟨urb.TransferFlags, actual_length⟩, .Success)) ∧
      (copy_status ≠ .Success →
        fetch_urbr_bulk_or_interrupt urb actual_length copy_status = (urb, copy_status))) ∧
    (IS_TRANSFER_FLAGS_IN urb.TransferFlags = false →
      fetch_urbr_bulk_or_interrupt urb actual_length copy_status = (urb, .Success)) := by
  constructor
  · intro hin
    constructor
    · intro hc
      simp [fetch_urbr_bulk_or_interrupt, hin, hc]
    · intro hc
      simp [fetch_urbr_bulk_or_interrupt, hin, hc]
  · intro hout
    simp [fetch_urbr_bulk_or_interrupt, hout]

/-- C10 witness: an IN transfer (flags 1) with a successful copy takes the
header's actual_length 64; with a failing copy it keeps length 512 and
returns the failing status; an OUT transfer (flags 0) is a no-op success. -/
theorem C10_fetch_urbr_witness :
    fetch_urbr_bulk_or_interrupt ⟨1, 512⟩ 64 .Success = (⟨1, 64⟩, .Success) ∧
    fetch_urbr_bulk_or_interrupt ⟨1, 512⟩ 64 .Unsuccessful = (⟨1, 512⟩, .Unsuccessful) ∧
    fetch_urbr_bulk_or_interrupt ⟨0, 512⟩ 64 .Unsuccessful = (⟨0, 512⟩, .Success) :=
  ⟨((C10_fetch_urbr_bulk_or_interrupt ⟨1, 512⟩ 64 .Success).1 rfl).1 rfl,
   ((C10_fetch_urbr_bulk_or_interrupt ⟨1, 512⟩ 64 .Unsuccessful).1 rfl).2 (by decide),
   (C10_fetch_urbr_bulk_or_interrupt ⟨0, 512⟩ 64 .Unsuccessful).2 rfl⟩

end UsbipWin2
